import Mathlib

/-!
# OptionsDialog (src/dialogs/OptionsDialog.cpp)

A shallow embedding of the options dialog: the widget attributes that its
handlers read and write are the fields of `Dialog`, every handler is a
function from a dialog state to the next one, and every call the dialog makes
on a collaborator (main window, analysis task, task manager, timers,
`QDialog::done`) is appended to the field `calls` in program order.

Library behaviour the handlers rely on is modelled next to them and named
after the library function:

* `tr` returns the source text (no translation catalogue installed), `tr_n`
  replaces `%n` by the number, `QString_arg` replaces `%1`;
* `analSlider_setValue` is `QAbstractSlider::setValue`: the value is bound to
  the range of the slider, and `valueChanged` is emitted (here: the connected
  slot `on_analSlider_valueChanged` runs) only when the value really changes.
  The range is set in the form file of the dialog; it is kept in the state as
  `analSlider_minimum` and `analSlider_maximum`;
* `QString_toInt` is `QString::toInt` in base 10 (C locale, ASCII sign and
  digits);
* the fields `_visible` and `_enabled` hold the own flag of a widget, as
  written by `setVisible` and `setEnabled`;
* a click on a check box toggles it and runs the slot of `clicked(bool)` with
  the new state (`handle`).

C++ `int` values are `Int`; `/` and `%` are `Int.tdiv` and `Int.tmod`.

The sections that follow the model hold, for each property of the dialog, the
lemmas it needs and then its theorem.
-/

namespace OptionsDialog

/-! ## Data model -/

/-- The enum `OptionsDialog::Endianness`. -/
inductive Endianness where
  | Auto
  | Little
  | Big
  deriving DecidableEq, Repr

/-- The two `Qt::ArrowType` values the dialog uses. -/
inductive ArrowType where
  | RightArrow
  | DownArrow
  deriving DecidableEq, Repr

/-- A call made by the dialog on one of its collaborators. -/
inductive Call where
  /-- The call `main->initUI()`. -/
  | initUI
  /-- The calls `analTimer.setInterval(i); analTimer.setSingleShot(false); analTimer.start()`. -/
  | analTimer_start (interval : Int)
  /-- The call `analElapsedTimer.start()`. -/
  | analElapsedTimer_start
  /-- The call `analTask.setSettings(main, level, advanced)`. -/
  | setSettings (level : Int) (advanced : List String)
  /-- The call `Core()->getAsyncTaskManager()->start(&analTask)`. -/
  | startTask
  /-- The creation `new AsyncTaskDialog(&analTask, main)` followed by `show()`. -/
  | showTaskDialog
  /-- The call `main->addOutput(msg)`. -/
  | addOutput (msg : String)
  /-- The call `main->finalizeOpen()`. -/
  | finalizeOpen
  /-- The call `QDialog::done(r)`. -/
  | done (r : Int)
  /-- The creation `new NewFileDialog(nullptr)` followed by `show()`. -/
  | showNewFileDialog
  deriving DecidableEq, Repr

/-- The dialog state: the member `defaultAnalLevel`, the attributes of the
widgets of `ui` that the handlers below read or write, and the calls made so
far on the collaborators. -/
structure Dialog where
  defaultAnalLevel : Int
  analSlider_value : Int
  analSlider_minimum : Int
  analSlider_maximum : Int
  analDescription_text : String
  analCheckBox_checked : Bool
  analCheckBox_text : String
  analoptionsFrame_visible : Bool
  hideFrame_visible : Bool
  AdvOptButton_checked : Bool
  AdvOptButton_arrowType : ArrowType
  aa_symbols : Bool
  aar_references : Bool
  aac_calls : Bool
  aab_basicblocks : Bool
  aan_rename : Bool
  aae_emulate : Bool
  aat_consecutive : Bool
  afta_typeargument : Bool
  aaT_aftertrap : Bool
  aap_preludes : Bool
  jmptbl : Bool
  pushret : Bool
  hasnext : Bool
  optionsWidget_enabled : Bool
  okButton_enabled : Bool
  cancelButton_enabled : Bool
  progressBar_visible : Bool
  statusLabel_visible : Bool
  elapsedLabel_visible : Bool
  statusLabel_text : String
  elapsedLabel_text : String
  endiannessComboBox_currentIndex : Int
  bitsComboBox_currentText : String
  entry_analbb_text : String
  calls : List Call
  deriving DecidableEq, Repr

/-! ## Library functions -/

/-- The function `QObject::tr(s)`: the source text. -/
def tr (s : String) : String := s

/-- Replace every occurrence of the two-character marker `%c` in `s` by `r`. -/
def substMarker (c : Char) (r : List Char) : List Char → List Char
  | [] => []
  | [x] => [x]
  | x :: y :: rest =>
    if x = '%' ∧ y = c then r ++ substMarker c r rest
    else x :: substMarker c r (y :: rest)

/-- The function `QObject::tr(s, disambiguation, n)`: the source text, in
which `%n` is replaced by the decimal numeral of `n` when `n` is not negative.
The second argument of the C++ call is a disambiguation comment and does not
reach the text. -/
def tr_n (s : String) (n : Int) : String :=
  if 0 ≤ n then String.mk (substMarker 'n' (toString n).toList s.toList) else s

/-- The expression `QString(fmt).arg(a)` for a format with the single place marker `%1`. -/
def QString_arg (fmt : String) (a : String) : String :=
  String.mk (substMarker '1' a.toList fmt.toList)

/-- The constant `INT_MIN` of a 32-bit `int`. -/
def INT_MIN : Int := -2147483648

/-- The constant `INT_MAX` of a 32-bit `int`. -/
def INT_MAX : Int := 2147483647

/-- Conversion of a `qint64` to `int` (the low 32 bits, two's complement). -/
def toInt32 (x : Int) : Int := (x + 2147483648) % 4294967296 - 2147483648

/-- The predicate `QChar::isSpace`: the control characters U+0009 to U+000D,
U+0085, and the Unicode separators. -/
def QChar_isSpace (c : Char) : Bool :=
  let n := c.toNat
  (9 ≤ n && n ≤ 13) || n == 0x20 || n == 0x85 || n == 0xA0 || n == 0x1680
    || (0x2000 ≤ n && n ≤ 0x200A) || n == 0x2028 || n == 0x2029 || n == 0x202F
    || n == 0x205F || n == 0x3000

/-- The text without its leading and trailing white space. -/
def trimSpace (cs : List Char) : List Char :=
  ((cs.dropWhile QChar_isSpace).reverse.dropWhile QChar_isSpace).reverse

/-- The digit loop of the conversion: the value of a run of decimal digits
read from the left with `acc` already read, `none` at the first character
that is not a digit. -/
def parseDigits : List Char → Nat → Option Nat
  | [], acc => some acc
  | c :: cs, acc =>
    if c.isDigit then parseDigits cs (acc * 10 + (c.toNat - '0'.toNat))
    else none

/-- The sign that starts a number, if any: whether the number is negative,
and the characters after the sign. -/
def splitSign : List Char → Bool × List Char
  | [] => (false, [])
  | c :: r =>
    if c = '-' then (true, r)
    else if c = '+' then (false, r)
    else (false, c :: r)

/-- The function `QString::toInt(bool *ok, int base = 10)`, as the pair of the
returned value and the flag written to `ok`: white space around the number is
skipped, one sign `+` or `-` may come first, at least one decimal digit must
follow and nothing else, and the number must fit an `int`; when the conversion
fails the value is 0 and the flag is false. -/
def QString_toInt (s : String) : Int × Bool :=
  let t := trimSpace s.toList
  let signed := splitSign t
  match signed.2 with
  | [] => (0, false)
  | c :: cs =>
    match parseDigits (c :: cs) 0 with
    | none => (0, false)
    | some v =>
      let n : Int := if signed.1 then -(v : Int) else (v : Int)
      if INT_MIN ≤ n ∧ n ≤ INT_MAX then (n, true) else (0, false)

/-! ## Handlers -/

/-- Method `OptionsDialog::setInteractionEnabled` -/
def setInteractionEnabled (d : Dialog) (enabled : Bool) : Dialog :=
  let d := { d with optionsWidget_enabled := enabled }
  let d := { d with okButton_enabled := enabled }
  { d with cancelButton_enabled := enabled }

/-- Method `OptionsDialog::getSelectedBits`: the returned value and the state after
the call. -/
def getSelectedBits (d : Dialog) : Int × Dialog :=
  let sel_bits := d.bitsComboBox_currentText
  if sel_bits ≠ "Auto" then
    ((QString_toInt sel_bits).1, d)
  else
    (0, d)

/-- Method `OptionsDialog::getSelectedBBSize`: the returned value and the state after
the call. -/
def getSelectedBBSize (d : Dialog) : Int × Dialog :=
  let sel_bbsize := d.entry_analbb_text
  let r := QString_toInt sel_bbsize
  let ok := r.2
  let bbsize := r.1
  if ok then (bbsize, d) else (1024, d)

/-- Method `OptionsDialog::getSelectedEndianness`: the returned value and the state
after the call. -/
def getSelectedEndianness (d : Dialog) : Endianness × Dialog :=
  if d.endiannessComboBox_currentIndex = 1 then (Endianness.Little, d)
  else if d.endiannessComboBox_currentIndex = 2 then (Endianness.Big, d)
  else (Endianness.Auto, d)

/-- Method `OptionsDialog::analysisDescription` -/
def analysisDescription (level : Int) : String :=
  if level = 0 then tr "No analysis"
  else if level = 1 then tr "Auto-Analysis (aaa)"
  else if level = 2 then tr "Auto-Analysis Experimental (aaaa)"
  else if level = 3 then tr "Advanced"
  else tr "Unknown"

/-- Method `OptionsDialog::on_analSlider_valueChanged` -/
def on_analSlider_valueChanged (d : Dialog) (value : Int) : Dialog :=
  let text := tr "Level" ++ QString_arg ": %1" (analysisDescription value)
  let d := { d with analDescription_text := text }
  if value = 0 then
    let d := { d with analCheckBox_checked := false }
    { d with analCheckBox_text := tr "Analysis: Disabled" }
  else
    let d := { d with analCheckBox_checked := true }
    let d := { d with analCheckBox_text := tr "Analysis: Enabled" }
    if value = 3 then
      { d with analoptionsFrame_visible := true }
    else
      { d with analoptionsFrame_visible := false }

/-- The call `ui->analSlider->setValue(value)` (`QAbstractSlider::setValue`):
the value is bound to the range of the slider; when it differs from the
current value it is stored and the signal `valueChanged` runs the slot
`on_analSlider_valueChanged`, otherwise nothing happens. -/
def analSlider_setValue (d : Dialog) (value : Int) : Dialog :=
  let value := max d.analSlider_minimum (min d.analSlider_maximum value)
  if d.analSlider_value = value then d
  else on_analSlider_valueChanged { d with analSlider_value := value } value

/-- Method `OptionsDialog::updateProgressTimer`; `elapsed` is the value returned by
`analElapsedTimer.elapsed()`, in milliseconds. The sum and the quotient by
1000 are `qint64` values; the quotient is converted to `int`. -/
def updateProgressTimer (d : Dialog) (elapsed : Int) : Dialog :=
  let secondsElapsed : Int := toInt32 ((elapsed + 500).tdiv 1000)
  let minutesElapsed : Int := secondsElapsed.tdiv 60
  let hoursElapsed : Int := minutesElapsed.tdiv 60
  let label := tr "Running for" ++ " "
  let label :=
    if hoursElapsed ≠ 0 then label ++ tr_n "%n hour" hoursElapsed ++ " " else label
  let label :=
    if minutesElapsed ≠ 0 then label ++ tr_n "%n minute" (minutesElapsed.tmod 60) ++ " "
    else label
  let label := label ++ tr_n "%n seconds" (secondsElapsed.tmod 60)
  { d with elapsedLabel_text := label }

/-- Method `OptionsDialog::updateProgress` -/
def updateProgress (d : Dialog) (status : String) : Dialog :=
  { d with statusLabel_text := status }

/-- Method `OptionsDialog::setupAndStartAnalysis`; `elapsed` is what the elapsed
timer reads when the first label is drawn. The two `connect` calls install
wiring only and change no attribute. -/
def setupAndStartAnalysis (d : Dialog) (level : Int) (advanced : List String)
    (elapsed : Int) : Dialog :=
  let d := analSlider_setValue d level
  let d := setInteractionEnabled d false
  let d := { d with progressBar_visible := true }
  let d := { d with statusLabel_visible := true }
  let d := { d with elapsedLabel_visible := true }
  let d := { d with statusLabel_text := tr "Starting analysis" }
  let d := { d with calls := d.calls ++ [Call.initUI] }
  let d := { d with calls := d.calls ++ [Call.analTimer_start 1000] }
  let d := { d with calls := d.calls ++ [Call.analElapsedTimer_start] }
  let d := updateProgressTimer d elapsed
  let d := { d with calls := d.calls ++ [Call.setSettings level advanced] }
  let d := { d with calls := d.calls ++ [Call.startTask] }
  { d with calls := d.calls ++ [Call.showTaskDialog] }

/-- The list `advanced` that `OptionsDialog::on_okButton_clicked` builds
before it calls `setupAndStartAnalysis`. -/
def on_okButton_clicked_advanced (d : Dialog) : List String :=
  let advanced : List String := []
  if d.analSlider_value = 3 then
    let advanced := if d.aa_symbols then advanced ++ ["aa"] else advanced
    let advanced := if d.aar_references then advanced ++ ["aar"] else advanced
    let advanced := if d.aac_calls then advanced ++ ["aac"] else advanced
    let advanced := if d.aab_basicblocks then advanced ++ ["aab"] else advanced
    let advanced := if d.aan_rename then advanced ++ ["aan"] else advanced
    let advanced := if d.aae_emulate then advanced ++ ["aae"] else advanced
    let advanced := if d.aat_consecutive then advanced ++ ["aat"] else advanced
    let advanced := if d.afta_typeargument then advanced ++ ["afta"] else advanced
    let advanced := if d.aaT_aftertrap then advanced ++ ["aaT"] else advanced
    let advanced := if d.aap_preludes then advanced ++ ["aap"] else advanced
    let advanced := if d.jmptbl then advanced ++ ["e! anal.jmptbl"] else advanced
    let advanced := if d.pushret then advanced ++ ["e! anal.pushret"] else advanced
    let advanced := if d.hasnext then advanced ++ ["e! anal.hasnext"] else advanced
    advanced
  else
    advanced

/-- Method `OptionsDialog::on_okButton_clicked` -/
def on_okButton_clicked (d : Dialog) (elapsed : Int) : Dialog :=
  setupAndStartAnalysis d d.analSlider_value (on_okButton_clicked_advanced d) elapsed

/-- Method `OptionsDialog::analysisFinished`; `interrupted` is the value returned by
`analTask.isInterrupted()`. -/
def analysisFinished (d : Dialog) (interrupted : Bool) : Dialog :=
  if interrupted then
    let d := updateProgress d (tr "Analysis aborted.")
    { d with calls := d.calls ++ [Call.done 1] }
  else
    let d := updateProgress d (tr "Loading interface...")
    let d := { d with calls := d.calls ++ [Call.addOutput (tr " > Analysis finished")] }
    let d := { d with calls := d.calls ++ [Call.finalizeOpen] }
    { d with calls := d.calls ++ [Call.done 0] }

/-- Method `OptionsDialog::on_AdvOptButton_clicked` -/
def on_AdvOptButton_clicked (d : Dialog) : Dialog :=
  if d.AdvOptButton_checked then
    let d := { d with hideFrame_visible := true }
    { d with AdvOptButton_arrowType := ArrowType.DownArrow }
  else
    let d := { d with hideFrame_visible := false }
    { d with AdvOptButton_arrowType := ArrowType.RightArrow }

/-- Method `OptionsDialog::on_analCheckBox_clicked` -/
def on_analCheckBox_clicked (d : Dialog) (checked : Bool) : Dialog :=
  let d := if !checked then { d with defaultAnalLevel := d.analSlider_value } else d
  analSlider_setValue d (if checked then d.defaultAnalLevel else 0)

/-- Method `OptionsDialog::reject` -/
def reject (d : Dialog) : Dialog :=
  let d := { d with calls := d.calls ++ [Call.done 0] }
  { d with calls := d.calls ++ [Call.showNewFileDialog] }

/-! ## Events and auxiliary definitions used by the statements -/

/-- The fixed sequence of analysis flags of the specification, in the order
of the checkboxes. -/
def advancedFlags : List String :=
  ["aa", "aar", "aac", "aab", "aan", "aae", "aat", "afta", "aaT", "aap",
   "e! anal.jmptbl", "e! anal.pushret", "e! anal.hasnext"]

/-- The states of the thirteen advanced checkboxes, in the same order. -/
def advancedCheckBoxes (d : Dialog) : List Bool :=
  [d.aa_symbols, d.aar_references, d.aac_calls, d.aab_basicblocks, d.aan_rename,
   d.aae_emulate, d.aat_consecutive, d.afta_typeargument, d.aaT_aftertrap,
   d.aap_preludes, d.jmptbl, d.pushret, d.hasnext]

/-- The specification of the advanced list: the entries of a list of flags
whose checkbox is checked, in the order of the list. -/
def keepChecked : List String → List Bool → List String
  | f :: fs, b :: bs => if b then f :: keepChecked fs bs else keepChecked fs bs
  | _, _ => []

/-- The state `d` with the thirteen advanced checkboxes set to the given
states. -/
def setAdvancedCheckBoxes (d : Dialog)
    (b1 b2 b3 b4 b5 b6 b7 b8 b9 b10 b11 b12 b13 : Bool) : Dialog :=
  { d with
    aa_symbols := b1, aar_references := b2, aac_calls := b3, aab_basicblocks := b4,
    aan_rename := b5, aae_emulate := b6, aat_consecutive := b7, afta_typeargument := b8,
    aaT_aftertrap := b9, aap_preludes := b10, jmptbl := b11, pushret := b12, hasnext := b13 }

/-- Two dialog states differ at most in their advanced checkboxes. -/
def DifferOnlyInAdvancedCheckBoxes (d d' : Dialog) : Prop :=
  d' = setAdvancedCheckBoxes d d'.aa_symbols d'.aar_references d'.aac_calls
    d'.aab_basicblocks d'.aan_rename d'.aae_emulate d'.aat_consecutive d'.afta_typeargument
    d'.aaT_aftertrap d'.aap_preludes d'.jmptbl d'.pushret d'.hasnext

instance (d d' : Dialog) : Decidable (DifferOnlyInAdvancedCheckBoxes d d') := by
  unfold DifferOnlyInAdvancedCheckBoxes
  infer_instance

/-- The calls a handler made: those of `after` that come after the calls of
`before`. -/
def callsMade (before after : Dialog) : List Call :=
  after.calls.drop before.calls.length

/-- The options widget, the OK button and the cancel button are disabled. -/
def InteractionDisabled (d : Dialog) : Prop :=
  d.optionsWidget_enabled = false ∧ d.okButton_enabled = false ∧ d.cancelButton_enabled = false

instance (d : Dialog) : Decidable (InteractionDisabled d) := by
  unfold InteractionDisabled
  infer_instance

/-- The progress bar, the status label and the elapsed label are visible. -/
def ProgressVisible (d : Dialog) : Prop :=
  d.progressBar_visible = true ∧ d.statusLabel_visible = true ∧ d.elapsedLabel_visible = true

instance (d : Dialog) : Decidable (ProgressVisible d) := by
  unfold ProgressVisible
  infer_instance

/-- What can happen to the dialog: a slot is run by a user action, by the
timer or by the analysis task. -/
inductive Event where
  /-- The user moves the analysis slider to `value`. -/
  | analSlider_moved (value : Int)
  /-- The user clicks the analysis checkbox: the box toggles and `clicked`
  carries the new state. -/
  | analCheckBox_click
  /-- The user clicks the button of the advanced options: the button toggles. -/
  | AdvOptButton_click
  /-- The user clicks OK; the elapsed timer reads `elapsed` for the first label. -/
  | okButton_click (elapsed : Int)
  /-- The user clicks Cancel. -/
  | cancelButton_click
  /-- A status text arrives. -/
  | updateProgress (status : String)
  /-- The timer `analTimer` fires while the elapsed timer reads `elapsed`. -/
  | updateProgressTimer (elapsed : Int)
  /-- The analysis task finishes. -/
  | analysisFinished (interrupted : Bool)
  deriving DecidableEq, Repr

/-- The slot that an event runs. -/
def handle (d : Dialog) : Event → Dialog
  | .analSlider_moved value => analSlider_setValue d value
  | .analCheckBox_click =>
    on_analCheckBox_clicked { d with analCheckBox_checked := !d.analCheckBox_checked }
      (!d.analCheckBox_checked)
  | .AdvOptButton_click =>
    on_AdvOptButton_clicked { d with AdvOptButton_checked := !d.AdvOptButton_checked }
  | .okButton_click elapsed => on_okButton_clicked d elapsed
  | .cancelButton_click => reject d
  | .updateProgress status => updateProgress d status
  | .updateProgressTimer elapsed => updateProgressTimer d elapsed
  | .analysisFinished interrupted => analysisFinished d interrupted

/-- The events that a running analysis sends before it finishes. -/
def Event.isProgress : Event → Bool
  | .updateProgress _ => true
  | .updateProgressTimer _ => true
  | _ => false

/-- The events of the analysis depth controls: slider changes and clicks on
the analysis checkbox. -/
def Event.isDepthControl : Event → Bool
  | .analSlider_moved _ => true
  | .analCheckBox_click => true
  | _ => false

/-- A dialog state used to instantiate the statements: level 3 on a slider
from 0 to 3, four advanced checkboxes checked. -/
def sampleDialog : Dialog := {
  defaultAnalLevel := 1, analSlider_value := 3, analSlider_minimum := 0,
  analSlider_maximum := 3, analDescription_text := "Level: Advanced",
  analCheckBox_checked := true, analCheckBox_text := "Analysis: Enabled",
  analoptionsFrame_visible := true, hideFrame_visible := false,
  AdvOptButton_checked := false, AdvOptButton_arrowType := ArrowType.RightArrow,
  aa_symbols := true, aar_references := false, aac_calls := true, aab_basicblocks := false,
  aan_rename := false, aae_emulate := false, aat_consecutive := false,
  afta_typeargument := false, aaT_aftertrap := false, aap_preludes := false,
  jmptbl := true, pushret := false, hasnext := true,
  optionsWidget_enabled := true, okButton_enabled := true, cancelButton_enabled := true,
  progressBar_visible := false, statusLabel_visible := false, elapsedLabel_visible := false,
  statusLabel_text := "", elapsedLabel_text := "",
  endiannessComboBox_currentIndex := 0, bitsComboBox_currentText := "Auto",
  entry_analbb_text := "", calls := [] }

/-- The constructor `OptionsDialog::OptionsDialog`, from the state `ui` that
`setupUi` built: the member initialisers and the statements that write an
attribute of `Dialog`; the other statements fill combo boxes, set tool tips
and install connections. -/
def OptionsDialog_ctor (ui : Dialog) : Dialog :=
  let d := { ui with defaultAnalLevel := 1 }
  let d := { d with progressBar_visible := false }
  let d := { d with statusLabel_visible := false }
  let d := { d with elapsedLabel_visible := false }
  let d := analSlider_setValue d d.defaultAnalLevel
  let d := { d with hideFrame_visible := false }
  { d with analoptionsFrame_visible := false }

/-- The slider holds a value of its range, and 0 is a value of the range. -/
def SliderInRange (d : Dialog) : Prop :=
  d.analSlider_minimum ≤ 0 ∧ 0 ≤ d.analSlider_maximum
    ∧ d.analSlider_minimum ≤ d.analSlider_value ∧ d.analSlider_value ≤ d.analSlider_maximum

instance (d : Dialog) : Decidable (SliderInRange d) := by
  unfold SliderInRange
  infer_instance

/-- The initial state of the depth controls: `defaultAnalLevel` is 1, the
analysis checkbox is checked if and only if the slider value is not 0, and
the slider is in its range, which holds the levels 0 and 1. -/
def InitialDepthState (d : Dialog) : Prop :=
  d.defaultAnalLevel = 1 ∧ (d.analCheckBox_checked = true ↔ d.analSlider_value ≠ 0)
    ∧ SliderInRange d ∧ 1 ≤ d.analSlider_maximum

instance (d : Dialog) : Decidable (InitialDepthState d) := by
  unfold InitialDepthState
  infer_instance

/-- The states reached from an initial state by slider changes and clicks on
the analysis checkbox. -/
inductive ReachableByDepthControls : Dialog → Prop where
  | initial (d : Dialog) : InitialDepthState d → ReachableByDepthControls d
  | step (d : Dialog) (e : Event) : ReachableByDepthControls d → e.isDepthControl = true →
      ReachableByDepthControls (handle d e)

/-- The invariant of the depth controls. -/
def DepthInvariant (d : Dialog) : Prop :=
  SliderInRange d
    ∧ d.analSlider_minimum ≤ d.defaultAnalLevel ∧ d.defaultAnalLevel ≤ d.analSlider_maximum
    ∧ d.defaultAnalLevel ≠ 0
    ∧ (d.analCheckBox_checked = true ↔ d.analSlider_value ≠ 0)

instance (d : Dialog) : Decidable (DepthInvariant d) := by
  unfold DepthInvariant
  infer_instance

/-- A state as `setupUi` may build it: slider from 0 to 3 at 0, nothing
checked. -/
def sampleUi : Dialog := {
  defaultAnalLevel := 0, analSlider_value := 0, analSlider_minimum := 0,
  analSlider_maximum := 3, analDescription_text := "",
  analCheckBox_checked := false, analCheckBox_text := "",
  analoptionsFrame_visible := true, hideFrame_visible := true,
  AdvOptButton_checked := false, AdvOptButton_arrowType := ArrowType.RightArrow,
  aa_symbols := false, aar_references := false, aac_calls := false, aab_basicblocks := false,
  aan_rename := false, aae_emulate := false, aat_consecutive := false,
  afta_typeargument := false, aaT_aftertrap := false, aap_preludes := false,
  jmptbl := false, pushret := false, hasnext := false,
  optionsWidget_enabled := true, okButton_enabled := true, cancelButton_enabled := true,
  progressBar_visible := true, statusLabel_visible := true, elapsedLabel_visible := true,
  statusLabel_text := "", elapsedLabel_text := "",
  endiannessComboBox_currentIndex := 0, bitsComboBox_currentText := "Auto",
  entry_analbb_text := "", calls := [] }

/-- The number that a run of decimal digits denotes in positional notation,
most significant digit first. -/
def decimalValue (ds : List Char) : Nat :=
  Nat.ofDigits 10 (ds.reverse.map fun c => c.toNat - '0'.toNat)

/-- The text `t` is a valid base-10 representation of the int `n`: between
optional white space stands an optional sign `+` or `-` followed by one or
more decimal digits, the signed number they denote is `n`, and `n` is in the
range of `int`. -/
def IsIntText (t : String) (n : Int) : Prop :=
  ∃ (sign ds : List Char),
    trimSpace t.toList = sign ++ ds
      ∧ (sign = [] ∨ sign = ['+'] ∨ sign = ['-'])
      ∧ ds ≠ [] ∧ (∀ c ∈ ds, c.isDigit = true)
      ∧ n = (if sign = ['-'] then -(decimalValue ds : Int) else (decimalValue ds : Int))
      ∧ INT_MIN ≤ n ∧ n ≤ INT_MAX

/-! ## Lemmas -/

theorem keepChecked_nil (bs : List Bool) : keepChecked [] bs = [] := by
  simp [keepChecked]

theorem keepChecked_cons (f : String) (fs : List String) (b : Bool) (bs : List Bool) :
    keepChecked (f :: fs) (b :: bs) = (if b then [f] else []) ++ keepChecked fs bs := by
  cases b <;> simp [keepChecked]

theorem ite_append_singleton (b : Bool) (l : List String) (s : String) :
    (if b = true then l ++ [s] else l) = l ++ (if b then [s] else []) := by
  cases b <;> simp

theorem keepChecked_sublist : ∀ (fs : List String) (bs : List Bool),
    (keepChecked fs bs).Sublist fs
  | [], _ => by simp [keepChecked]
  | _ :: fs, [] => by simp [keepChecked]
  | f :: fs, b :: bs => by
    cases b
    · simpa [keepChecked] using (keepChecked_sublist fs bs).cons f
    · simpa [keepChecked] using (keepChecked_sublist fs bs)

theorem mem_keepChecked_iff : ∀ (fs : List String) (bs : List Bool), fs.Nodup →
    ∀ p ∈ fs.zip bs, (p.1 ∈ keepChecked fs bs ↔ p.2 = true)
  | [], _, _ => by simp
  | _ :: _, [], _ => by simp
  | f :: fs, b :: bs, hnd => by
    intro p hp
    have hnd' := List.nodup_cons.mp hnd
    rw [List.zip_cons_cons, List.mem_cons] at hp
    rcases hp with rfl | hp
    · cases b
      · simp only [keepChecked, Bool.false_eq_true, if_false, iff_false]
        exact fun hm => hnd'.1 ((keepChecked_sublist fs bs).subset hm)
      · simp [keepChecked]
    · have ih := mem_keepChecked_iff fs bs hnd'.2 p hp
      have hne : p.1 ≠ f := by
        intro he
        exact hnd'.1 (he ▸ (List.of_mem_zip hp).1)
      cases b
      · simpa [keepChecked] using ih
      · simp only [keepChecked, if_true, List.mem_cons, hne, false_or]
        exact ih

theorem advancedFlags_nodup : advancedFlags.Nodup := by decide

theorem on_okButton_clicked_advanced_eq (d : Dialog) (h : d.analSlider_value = 3) :
    on_okButton_clicked_advanced d = keepChecked advancedFlags (advancedCheckBoxes d) := by
  have lhs : on_okButton_clicked_advanced d =
      [] ++ (if d.aa_symbols then ["aa"] else []) ++ (if d.aar_references then ["aar"] else [])
        ++ (if d.aac_calls then ["aac"] else []) ++ (if d.aab_basicblocks then ["aab"] else [])
        ++ (if d.aan_rename then ["aan"] else []) ++ (if d.aae_emulate then ["aae"] else [])
        ++ (if d.aat_consecutive then ["aat"] else [])
        ++ (if d.afta_typeargument then ["afta"] else [])
        ++ (if d.aaT_aftertrap then ["aaT"] else []) ++ (if d.aap_preludes then ["aap"] else [])
        ++ (if d.jmptbl then ["e! anal.jmptbl"] else [])
        ++ (if d.pushret then ["e! anal.pushret"] else [])
        ++ (if d.hasnext then ["e! anal.hasnext"] else []) := by
    simp only [on_okButton_clicked_advanced, h, if_true, ite_append_singleton]
  rw [lhs]
  simp only [advancedFlags, advancedCheckBoxes, keepChecked_cons, keepChecked_nil,
    List.nil_append, List.append_nil, List.append_assoc]

theorem on_analSlider_valueChanged_calls (d : Dialog) (value : Int) :
    (on_analSlider_valueChanged d value).calls = d.calls := by
  unfold on_analSlider_valueChanged
  split_ifs <;> rfl

theorem analSlider_setValue_calls (d : Dialog) (value : Int) :
    (analSlider_setValue d value).calls = d.calls := by
  simp only [analSlider_setValue]
  split_ifs
  · rfl
  · simp only [on_analSlider_valueChanged_calls]

theorem setupAndStartAnalysis_calls (d : Dialog) (level : Int) (advanced : List String)
    (elapsed : Int) :
    (setupAndStartAnalysis d level advanced elapsed).calls =
      d.calls ++ [Call.initUI, Call.analTimer_start 1000, Call.analElapsedTimer_start,
        Call.setSettings level advanced, Call.startTask, Call.showTaskDialog] := by
  simp [setupAndStartAnalysis, updateProgressTimer, setInteractionEnabled,
    analSlider_setValue_calls]

theorem callsMade_append (d d' : Dialog) (l : List Call) (h : d'.calls = d.calls ++ l) :
    callsMade d d' = l := by
  simp [callsMade, h]

/-! ## The advanced flags (C1, C2) -/

/-- C1: at slider value 3, `on_okButton_clicked` passes to
`setupAndStartAnalysis` (and so to the analysis task) exactly the entries of
the fixed sequence of flags whose checkbox is checked: the list is a
subsequence of the fixed sequence, in its order, has no duplicates, and a flag
is in it if and only if its checkbox is checked. -/
theorem okButton_advanced_flags_at_level3 (d : Dialog) (elapsed : Int)
    (h : d.analSlider_value = 3) :
    on_okButton_clicked d elapsed =
        setupAndStartAnalysis d 3 (keepChecked advancedFlags (advancedCheckBoxes d)) elapsed
      ∧ callsMade d (on_okButton_clicked d elapsed) =
          [Call.initUI, Call.analTimer_start 1000, Call.analElapsedTimer_start,
            Call.setSettings 3 (keepChecked advancedFlags (advancedCheckBoxes d)),
            Call.startTask, Call.showTaskDialog]
      ∧ (keepChecked advancedFlags (advancedCheckBoxes d)).Sublist advancedFlags
      ∧ (keepChecked advancedFlags (advancedCheckBoxes d)).Nodup
      ∧ ∀ p ∈ advancedFlags.zip (advancedCheckBoxes d),
          (p.1 ∈ keepChecked advancedFlags (advancedCheckBoxes d) ↔ p.2 = true) := by
  have hadv := on_okButton_clicked_advanced_eq d h
  have hsub := keepChecked_sublist advancedFlags (advancedCheckBoxes d)
  refine ⟨?_, ?_, hsub, hsub.nodup advancedFlags_nodup,
    mem_keepChecked_iff _ _ advancedFlags_nodup⟩
  · simp only [on_okButton_clicked, hadv, h]
  · apply callsMade_append
    simp only [on_okButton_clicked, hadv, h, setupAndStartAnalysis_calls]

/-- Instance of C1 at `sampleDialog`. -/
theorem okButton_advanced_flags_at_level3_witness :
    sampleDialog.analSlider_value = 3
      ∧ callsMade sampleDialog (on_okButton_clicked sampleDialog 0) =
          [Call.initUI, Call.analTimer_start 1000, Call.analElapsedTimer_start,
            Call.setSettings 3 ["aa", "aac", "e! anal.jmptbl", "e! anal.hasnext"],
            Call.startTask, Call.showTaskDialog] :=
  ⟨by decide, (okButton_advanced_flags_at_level3 sampleDialog 0 (by decide)).2.1⟩

/-- C2: at every slider value other than 3 the advanced list that
`on_okButton_clicked` passes to `setupAndStartAnalysis` is empty, whatever
the advanced checkboxes are; a state that differs from `d` only in the
advanced checkboxes starts the analysis with the same level and the same
(empty) advanced list. -/
theorem okButton_no_advanced_flags_below_level3 (d : Dialog) (elapsed : Int)
    (h : d.analSlider_value ≠ 3) :
    on_okButton_clicked d elapsed = setupAndStartAnalysis d d.analSlider_value [] elapsed
      ∧ callsMade d (on_okButton_clicked d elapsed) =
          [Call.initUI, Call.analTimer_start 1000, Call.analElapsedTimer_start,
            Call.setSettings d.analSlider_value [], Call.startTask, Call.showTaskDialog]
      ∧ ∀ d', DifferOnlyInAdvancedCheckBoxes d d' →
          on_okButton_clicked d' elapsed =
              setupAndStartAnalysis d' d.analSlider_value [] elapsed
            ∧ callsMade d' (on_okButton_clicked d' elapsed) =
                callsMade d (on_okButton_clicked d elapsed) := by
  have hempty : ∀ e : Dialog, e.analSlider_value ≠ 3 → on_okButton_clicked_advanced e = [] := by
    intro e he
    simp only [on_okButton_clicked_advanced, he, if_false]
  have hcalls : ∀ e : Dialog, e.analSlider_value ≠ 3 →
      callsMade e (on_okButton_clicked e elapsed) =
        [Call.initUI, Call.analTimer_start 1000, Call.analElapsedTimer_start,
          Call.setSettings e.analSlider_value [], Call.startTask, Call.showTaskDialog] := by
    intro e he
    apply callsMade_append
    simp only [on_okButton_clicked, hempty e he, setupAndStartAnalysis_calls]
  refine ⟨by simp only [on_okButton_clicked, hempty d h], hcalls d h, ?_⟩
  intro d' hd'
  have hv : d'.analSlider_value = d.analSlider_value := by
    rw [hd']
    rfl
  have h' : d'.analSlider_value ≠ 3 := by rw [hv]; exact h
  refine ⟨by simp only [on_okButton_clicked, hempty d' h', hv], ?_⟩
  rw [hcalls d' h', hcalls d h, hv]

/-- Instance of C2: `sampleDialog` moved to level 2, against the same state
with all advanced checkboxes cleared. -/
theorem okButton_no_advanced_flags_below_level3_witness :
    (analSlider_setValue sampleDialog 2).analSlider_value ≠ 3
      ∧ callsMade (analSlider_setValue sampleDialog 2)
          (on_okButton_clicked (analSlider_setValue sampleDialog 2) 0) =
        [Call.initUI, Call.analTimer_start 1000, Call.analElapsedTimer_start,
          Call.setSettings 2 [], Call.startTask, Call.showTaskDialog]
      ∧ DifferOnlyInAdvancedCheckBoxes (analSlider_setValue sampleDialog 2)
          (setAdvancedCheckBoxes (analSlider_setValue sampleDialog 2)
            false false false false false false false false false false false false false)
      ∧ callsMade
          (setAdvancedCheckBoxes (analSlider_setValue sampleDialog 2)
            false false false false false false false false false false false false false)
          (on_okButton_clicked
            (setAdvancedCheckBoxes (analSlider_setValue sampleDialog 2)
              false false false false false false false false false false false false false) 0)
        = callsMade (analSlider_setValue sampleDialog 2)
            (on_okButton_clicked (analSlider_setValue sampleDialog 2) 0) :=
  ⟨by decide,
    (okButton_no_advanced_flags_below_level3 (analSlider_setValue sampleDialog 2) 0
      (by decide)).2.1,
    show _ = _ from rfl,
    ((okButton_no_advanced_flags_below_level3 (analSlider_setValue sampleDialog 2) 0
      (by decide)).2.2
      (setAdvancedCheckBoxes (analSlider_setValue sampleDialog 2)
        false false false false false false false false false false false false false)
      (show _ = _ from rfl)).2⟩

/-! ## Interaction is blocked while the analysis runs (C3) -/

theorem setInteractionEnabled_false_disabled (d : Dialog) :
    InteractionDisabled (setInteractionEnabled d false) := by
  simp [InteractionDisabled, setInteractionEnabled]

theorem on_analSlider_valueChanged_enabled (d : Dialog) (value : Int) :
    (on_analSlider_valueChanged d value).optionsWidget_enabled = d.optionsWidget_enabled
      ∧ (on_analSlider_valueChanged d value).okButton_enabled = d.okButton_enabled
      ∧ (on_analSlider_valueChanged d value).cancelButton_enabled = d.cancelButton_enabled := by
  simp only [on_analSlider_valueChanged]
  split_ifs <;> exact ⟨rfl, rfl, rfl⟩

theorem analSlider_setValue_enabled (d : Dialog) (value : Int) :
    (analSlider_setValue d value).optionsWidget_enabled = d.optionsWidget_enabled
      ∧ (analSlider_setValue d value).okButton_enabled = d.okButton_enabled
      ∧ (analSlider_setValue d value).cancelButton_enabled = d.cancelButton_enabled := by
  simp only [analSlider_setValue]
  split_ifs
  · exact ⟨rfl, rfl, rfl⟩
  · exact on_analSlider_valueChanged_enabled _ _

theorem setupAndStartAnalysis_blocks (d : Dialog) (level : Int) (advanced : List String)
    (elapsed : Int) :
    InteractionDisabled (setupAndStartAnalysis d level advanced elapsed)
      ∧ ProgressVisible (setupAndStartAnalysis d level advanced elapsed) := by
  simp [InteractionDisabled, ProgressVisible, setupAndStartAnalysis, updateProgressTimer,
    setInteractionEnabled]

theorem handle_keeps_disabled (d : Dialog) (e : Event) (h : InteractionDisabled d) :
    InteractionDisabled (handle d e) := by
  obtain ⟨h1, h2, h3⟩ := h
  cases e with
  | analSlider_moved value =>
    obtain ⟨e1, e2, e3⟩ := analSlider_setValue_enabled d value
    exact ⟨by rw [handle, e1, h1], by rw [handle, e2, h2], by rw [handle, e3, h3]⟩
  | analCheckBox_click =>
    simp only [handle, on_analCheckBox_clicked]
    refine ⟨?_, ?_, ?_⟩
    · rw [(analSlider_setValue_enabled _ _).1]; split_ifs <;> exact h1
    · rw [(analSlider_setValue_enabled _ _).2.1]; split_ifs <;> exact h2
    · rw [(analSlider_setValue_enabled _ _).2.2]; split_ifs <;> exact h3
  | AdvOptButton_click =>
    simp only [handle, on_AdvOptButton_clicked]
    split_ifs <;> exact ⟨h1, h2, h3⟩
  | okButton_click elapsed => exact (setupAndStartAnalysis_blocks _ _ _ _).1
  | cancelButton_click => exact ⟨h1, h2, h3⟩
  | updateProgress status => exact ⟨h1, h2, h3⟩
  | updateProgressTimer elapsed => exact ⟨h1, h2, h3⟩
  | analysisFinished interrupted =>
    simp only [handle, analysisFinished]
    split_ifs <;> exact ⟨h1, h2, h3⟩

theorem progress_steps_keep (steps : List Event) :
    ∀ d : Dialog, (∀ e ∈ steps, e.isProgress = true) →
      InteractionDisabled d → ProgressVisible d →
      InteractionDisabled (steps.foldl handle d) ∧ ProgressVisible (steps.foldl handle d) := by
  induction steps with
  | nil => intro d _ h1 h2; exact ⟨h1, h2⟩
  | cons e es ih =>
    intro d hp h1 h2
    rw [List.foldl_cons]
    apply ih
    · intro e' he'; exact hp e' (List.mem_cons_of_mem _ he')
    · exact handle_keeps_disabled d e h1
    · have he := hp e (List.mem_cons_self _ _)
      cases e <;> first | exact h2 | simp [Event.isProgress] at he

/-- C3: after `setupAndStartAnalysis` the options widget, the OK button and
the cancel button are disabled and the progress bar, the status label and the
elapsed label are visible, from every state; any sequence of `updateProgress`
and `updateProgressTimer` steps that follows leaves all of this in place;
`setInteractionEnabled d b` sets the three controls to `b`, and no slot of the
dialog enables a control again once the three are disabled. -/
theorem interaction_blocked_while_analysis_runs (d : Dialog) (level : Int)
    (advanced : List String) (elapsed : Int) :
    InteractionDisabled (setupAndStartAnalysis d level advanced elapsed)
      ∧ ProgressVisible (setupAndStartAnalysis d level advanced elapsed)
      ∧ (∀ steps : List Event, (∀ e ∈ steps, e.isProgress = true) →
          InteractionDisabled
              (steps.foldl handle (setupAndStartAnalysis d level advanced elapsed))
            ∧ ProgressVisible
              (steps.foldl handle (setupAndStartAnalysis d level advanced elapsed)))
      ∧ (∀ (e : Dialog) (b : Bool),
          (setInteractionEnabled e b).optionsWidget_enabled = b
            ∧ (setInteractionEnabled e b).okButton_enabled = b
            ∧ (setInteractionEnabled e b).cancelButton_enabled = b)
      ∧ (∀ (e : Dialog) (ev : Event), InteractionDisabled e →
          InteractionDisabled (handle e ev)) := by
  have hb := setupAndStartAnalysis_blocks d level advanced elapsed
  refine ⟨hb.1, hb.2, ?_, ?_, handle_keeps_disabled⟩
  · intro steps hs
    exact progress_steps_keep steps _ hs hb.1 hb.2
  · intro e b
    exact ⟨rfl, rfl, rfl⟩

/-- Instance of C3: from `sampleDialog`, the controls are still disabled after
a status update and a timer tick, and a move of the slider after that leaves
them disabled. -/
theorem interaction_blocked_while_analysis_runs_witness :
    (InteractionDisabled
        ([Event.updateProgress "Loading", Event.updateProgressTimer 1500].foldl handle
          (setupAndStartAnalysis sampleDialog 3 ["aa"] 0))
      ∧ ProgressVisible
        ([Event.updateProgress "Loading", Event.updateProgressTimer 1500].foldl handle
          (setupAndStartAnalysis sampleDialog 3 ["aa"] 0)))
      ∧ InteractionDisabled
        (handle (setupAndStartAnalysis sampleDialog 3 ["aa"] 0) (Event.analSlider_moved 1)) :=
  ⟨(interaction_blocked_while_analysis_runs sampleDialog 3 ["aa"] 0).2.2.1
      [Event.updateProgress "Loading", Event.updateProgressTimer 1500] (by decide),
    (interaction_blocked_while_analysis_runs sampleDialog 3 ["aa"] 0).2.2.2.2
      (setupAndStartAnalysis sampleDialog 3 ["aa"] 0) (Event.analSlider_moved 1)
      (interaction_blocked_while_analysis_runs sampleDialog 3 ["aa"] 0).1⟩

/-! ## Completion and interruption (C4) -/

/-- C4: when the task was interrupted, `analysisFinished` sets the status text
to "Analysis aborted." and makes the single call `done(1)`: neither
`addOutput` nor `finalizeOpen`; when it was not, it sets the status text to
"Loading interface..." and calls `addOutput(" > Analysis finished")`,
`finalizeOpen()` and `done(0)`, in this order. Hence `finalizeOpen` is called,
exactly once, if and only if the task was not interrupted. -/
theorem analysisFinished_reports (d : Dialog) :
    (analysisFinished d true).statusLabel_text = "Analysis aborted."
      ∧ callsMade d (analysisFinished d true) = [Call.done 1]
      ∧ (analysisFinished d false).statusLabel_text = "Loading interface..."
      ∧ callsMade d (analysisFinished d false) =
          [Call.addOutput " > Analysis finished", Call.finalizeOpen, Call.done 0]
      ∧ ∀ interrupted : Bool,
          (Call.finalizeOpen ∈ callsMade d (analysisFinished d interrupted)
              ↔ interrupted = false)
            ∧ (callsMade d (analysisFinished d interrupted)).count Call.finalizeOpen
                = if interrupted then 0 else 1 := by
  have ht : callsMade d (analysisFinished d true) = [Call.done 1] :=
    callsMade_append _ _ _ (by simp [analysisFinished, updateProgress])
  have hf : callsMade d (analysisFinished d false) =
      [Call.addOutput " > Analysis finished", Call.finalizeOpen, Call.done 0] :=
    callsMade_append _ _ _ (by simp [analysisFinished, updateProgress, tr])
  refine ⟨rfl, ht, rfl, hf, ?_⟩
  intro interrupted
  cases interrupted
  · rw [hf]; decide
  · rw [ht]; decide

/-! ## Selections read from the widgets (C5) -/

/-- C5: `getSelectedEndianness` returns `Little` at current index 1, `Big`
at current index 2 and `Auto` at every other index (0, -1 and every index
from 3 on among them); it returns for every state and leaves the state as it
was. -/
theorem getSelectedEndianness_spec (d : Dialog) (i : Int) :
    (getSelectedEndianness { d with endiannessComboBox_currentIndex := 1 }).1
        = Endianness.Little
      ∧ (getSelectedEndianness { d with endiannessComboBox_currentIndex := 2 }).1
        = Endianness.Big
      ∧ (i ≠ 1 → i ≠ 2 →
          (getSelectedEndianness { d with endiannessComboBox_currentIndex := i }).1
            = Endianness.Auto)
      ∧ (getSelectedEndianness { d with endiannessComboBox_currentIndex := 0 }).1
        = Endianness.Auto
      ∧ (getSelectedEndianness { d with endiannessComboBox_currentIndex := -1 }).1
        = Endianness.Auto
      ∧ (3 ≤ i →
          (getSelectedEndianness { d with endiannessComboBox_currentIndex := i }).1
            = Endianness.Auto)
      ∧ (getSelectedEndianness d).2 = d := by
  refine ⟨rfl, rfl, ?_, rfl, rfl, ?_, ?_⟩
  · intro h1 h2
    simp [getSelectedEndianness, h1, h2]
  · intro h3
    have h1 : i ≠ 1 := by omega
    have h2 : i ≠ 2 := by omega
    simp [getSelectedEndianness, h1, h2]
  · simp only [getSelectedEndianness]
    split_ifs <;> rfl

/-- Instance of C5 at index 7 of `sampleDialog`. -/
theorem getSelectedEndianness_spec_witness :
    ((7 : Int) ≠ 1 ∧ (7 : Int) ≠ 2
      ∧ (getSelectedEndianness { sampleDialog with endiannessComboBox_currentIndex := 7 }).1
        = Endianness.Auto)
      ∧ ((3 : Int) ≤ 7
        ∧ (getSelectedEndianness { sampleDialog with endiannessComboBox_currentIndex := 7 }).1
          = Endianness.Auto) :=
  ⟨⟨by decide, by decide,
      (getSelectedEndianness_spec sampleDialog 7).2.2.1 (by decide) (by decide)⟩,
    ⟨by decide, (getSelectedEndianness_spec sampleDialog 7).2.2.2.2.2.1 (by decide)⟩⟩

/-! ## The advanced options frame (C8) -/

theorem on_analSlider_valueChanged_frame (d : Dialog) (value : Int) :
    (value ≠ 0 → ((on_analSlider_valueChanged d value).analoptionsFrame_visible = true
        ↔ value = 3))
      ∧ (value = 0 → (on_analSlider_valueChanged d value).analoptionsFrame_visible
        = d.analoptionsFrame_visible) := by
  constructor
  · intro h0
    by_cases h3 : value = 3 <;> simp [on_analSlider_valueChanged, h0, h3]
  · intro h0
    simp [on_analSlider_valueChanged, h0]

/-- C8 on the code: a slider change to 0 leaves the advanced options frame as
it was. From `sampleDialog` (level 3, frame visible) the frame is still
visible after `on_analSlider_valueChanged 0`, and the same state arises in a
new dialog when the user moves the slider to 3 and then clears the analysis
checkbox: slider value 0, frame visible. -/
theorem analoptionsFrame_visible_at_level0 :
    sampleDialog.analoptionsFrame_visible = true
      ∧ (on_analSlider_valueChanged sampleDialog 0).analoptionsFrame_visible = true
      ∧ (OptionsDialog_ctor sampleUi).analoptionsFrame_visible = false
      ∧ ([Event.analSlider_moved 3, Event.analCheckBox_click].foldl handle
          (OptionsDialog_ctor sampleUi)).analSlider_value = 0
      ∧ ([Event.analSlider_moved 3, Event.analCheckBox_click].foldl handle
          (OptionsDialog_ctor sampleUi)).analoptionsFrame_visible = true
      ∧ ([Event.analSlider_moved 3, Event.analSlider_moved 2, Event.analSlider_moved 0].foldl
          handle (OptionsDialog_ctor sampleUi)).analoptionsFrame_visible = false := by
  decide


/-! ## The analysis checkbox and the slider (C9) -/

theorem on_analSlider_valueChanged_depth (d : Dialog) (value : Int) :
    (on_analSlider_valueChanged d value).analSlider_value = d.analSlider_value
      ∧ (on_analSlider_valueChanged d value).analSlider_minimum = d.analSlider_minimum
      ∧ (on_analSlider_valueChanged d value).analSlider_maximum = d.analSlider_maximum
      ∧ (on_analSlider_valueChanged d value).defaultAnalLevel = d.defaultAnalLevel
      ∧ ((on_analSlider_valueChanged d value).analCheckBox_checked = true ↔ value ≠ 0) := by
  simp only [on_analSlider_valueChanged]
  split_ifs with h0 h3
  · exact ⟨rfl, rfl, rfl, rfl, by simp [h0]⟩
  · exact ⟨rfl, rfl, rfl, rfl, by simp [h0]⟩
  · exact ⟨rfl, rfl, rfl, rfl, by simp [h0]⟩

theorem analSlider_setValue_depth (d : Dialog) (value : Int) :
    (analSlider_setValue d value).analSlider_value
        = max d.analSlider_minimum (min d.analSlider_maximum value)
      ∧ (analSlider_setValue d value).analSlider_minimum = d.analSlider_minimum
      ∧ (analSlider_setValue d value).analSlider_maximum = d.analSlider_maximum
      ∧ (analSlider_setValue d value).defaultAnalLevel = d.defaultAnalLevel
      ∧ (d.analSlider_value ≠ max d.analSlider_minimum (min d.analSlider_maximum value) →
          ((analSlider_setValue d value).analCheckBox_checked = true
            ↔ max d.analSlider_minimum (min d.analSlider_maximum value) ≠ 0))
      ∧ (d.analSlider_value = max d.analSlider_minimum (min d.analSlider_maximum value) →
          (analSlider_setValue d value).analCheckBox_checked = d.analCheckBox_checked) := by
  simp only [analSlider_setValue]
  split_ifs with h
  · exact ⟨h, rfl, rfl, rfl, fun hn => absurd h hn, fun _ => rfl⟩
  · obtain ⟨e1, e2, e3, e4, e5⟩ := on_analSlider_valueChanged_depth
      { d with analSlider_value := max d.analSlider_minimum (min d.analSlider_maximum value) }
      (max d.analSlider_minimum (min d.analSlider_maximum value))
    exact ⟨e1, e2, e3, e4, fun _ => e5, fun he => absurd he h⟩

theorem clamp_of_mem (lo hi v : Int) (h1 : lo ≤ v) (h2 : v ≤ hi) : max lo (min hi v) = v := by
  rw [min_eq_right h2, max_eq_right h1]

theorem clamp_mem (lo hi v : Int) (h : lo ≤ hi) :
    lo ≤ max lo (min hi v) ∧ max lo (min hi v) ≤ hi := by
  constructor
  · exact le_max_left _ _
  · exact max_le h (min_le_left _ _)

theorem on_analCheckBox_clicked_true (d : Dialog) :
    on_analCheckBox_clicked d true = analSlider_setValue d d.defaultAnalLevel := by
  simp [on_analCheckBox_clicked]

theorem on_analCheckBox_clicked_false (d : Dialog) :
    on_analCheckBox_clicked d false
      = analSlider_setValue { d with defaultAnalLevel := d.analSlider_value } 0 := by
  simp [on_analCheckBox_clicked]

theorem analCheckBox_uncheck_then_check (d : Dialog) (hr : SliderInRange d)
    (hv : d.analSlider_value ≠ 0) :
    (on_analCheckBox_clicked d false).analSlider_value = 0
      ∧ (on_analCheckBox_clicked d false).defaultAnalLevel = d.analSlider_value
      ∧ (on_analCheckBox_clicked d false).analCheckBox_checked = false
      ∧ (on_analCheckBox_clicked (on_analCheckBox_clicked d false) true).analSlider_value
          = d.analSlider_value
      ∧ (on_analCheckBox_clicked (on_analCheckBox_clicked d false) true).defaultAnalLevel
          = d.analSlider_value
      ∧ (on_analCheckBox_clicked (on_analCheckBox_clicked d false) true).analCheckBox_checked
          = true := by
  obtain ⟨hmin, hmax, hlo, hhi⟩ := hr
  -- the first click
  obtain ⟨a1, a2, a3, a4, a5, _⟩ :=
    analSlider_setValue_depth { d with defaultAnalLevel := d.analSlider_value } 0
  rw [← on_analCheckBox_clicked_false] at a1 a2 a3 a4 a5
  dsimp only at a1 a2 a3 a4 a5
  have hc0 : max d.analSlider_minimum (min d.analSlider_maximum 0) = 0 :=
    clamp_of_mem _ _ _ hmin hmax
  rw [hc0] at a1 a5
  have hchk : (on_analCheckBox_clicked d false).analCheckBox_checked = false := by
    have := a5 hv
    simpa using this
  -- the second click
  obtain ⟨b1, _, _, b4, b5, _⟩ :=
    analSlider_setValue_depth (on_analCheckBox_clicked d false)
      (on_analCheckBox_clicked d false).defaultAnalLevel
  rw [← on_analCheckBox_clicked_true] at b1 b4 b5
  rw [a2, a3, a4, clamp_of_mem _ _ _ hlo hhi] at b1 b5
  refine ⟨a1, a4, hchk, b1, b4.trans a4, ?_⟩
  exact (b5 (by rw [a1]; exact fun h => hv h.symm)).2 hv


theorem DepthInvariant_of_initial (d : Dialog) (h : InitialDepthState d) : DepthInvariant d := by
  obtain ⟨hd, hc, hr, h1⟩ := h
  obtain ⟨hmin, hmax, hlo, hhi⟩ := hr
  refine ⟨⟨hmin, hmax, hlo, hhi⟩, ?_, ?_, ?_, hc⟩
  · rw [hd]; omega
  · rw [hd]; exact h1
  · rw [hd]; decide

theorem DepthInvariant_setValue (d : Dialog) (value : Int) (h : DepthInvariant d) :
    DepthInvariant (analSlider_setValue d value) := by
  obtain ⟨⟨hmin, hmax, hlo, hhi⟩, hdlo, hdhi, hd0, hc⟩ := h
  obtain ⟨e1, e2, e3, e4, e5, e6⟩ := analSlider_setValue_depth d value
  have hcl := clamp_mem d.analSlider_minimum d.analSlider_maximum value (le_trans hmin hmax)
  refine ⟨⟨?_, ?_, ?_, ?_⟩, ?_, ?_, ?_, ?_⟩
  · rw [e2]; exact hmin
  · rw [e3]; exact hmax
  · rw [e1, e2]; exact hcl.1
  · rw [e1, e3]; exact hcl.2
  · rw [e2, e4]; exact hdlo
  · rw [e3, e4]; exact hdhi
  · rw [e4]; exact hd0
  · by_cases hch : d.analSlider_value = max d.analSlider_minimum (min d.analSlider_maximum value)
    · rw [e6 hch, e1, ← hch]; exact hc
    · rw [e1]; exact e5 hch

theorem DepthInvariant_click (d : Dialog) (h : DepthInvariant d) :
    DepthInvariant (handle d Event.analCheckBox_click) := by
  obtain ⟨⟨hmin, hmax, hlo, hhi⟩, hdlo, hdhi, hd0, hc⟩ := h
  cases hchk : d.analCheckBox_checked
  · -- the box was clear: the slider is at 0 and returns to `defaultAnalLevel`
    have hv : d.analSlider_value = 0 := by
      by_contra hne
      have := hc.2 hne
      rw [hchk] at this
      exact Bool.false_ne_true this
    simp only [handle, hchk, Bool.not_false, on_analCheckBox_clicked_true]
    obtain ⟨e1, e2, e3, e4, e5, _⟩ :=
      analSlider_setValue_depth { d with analCheckBox_checked := true } d.defaultAnalLevel
    dsimp only at e1 e2 e3 e4 e5
    rw [clamp_of_mem _ _ _ hdlo hdhi] at e1 e5
    refine ⟨⟨?_, ?_, ?_, ?_⟩, ?_, ?_, ?_, ?_⟩
    · rw [e2]; exact hmin
    · rw [e3]; exact hmax
    · rw [e1, e2]; exact hdlo
    · rw [e1, e3]; exact hdhi
    · rw [e2, e4]; exact hdlo
    · rw [e3, e4]; exact hdhi
    · rw [e4]; exact hd0
    · rw [e1]
      exact e5 (by rw [hv]; exact fun h => hd0 h.symm)
  · -- the box was checked: the slider value is kept and the slider goes to 0
    have hv : d.analSlider_value ≠ 0 := hc.1 hchk
    simp only [handle, hchk, Bool.not_true, on_analCheckBox_clicked_false]
    obtain ⟨e1, e2, e3, e4, e5, _⟩ :=
      analSlider_setValue_depth
        { d with analCheckBox_checked := false, defaultAnalLevel := d.analSlider_value } 0
    dsimp only at e1 e2 e3 e4 e5
    rw [clamp_of_mem _ _ _ hmin hmax] at e1 e5
    refine ⟨⟨?_, ?_, ?_, ?_⟩, ?_, ?_, ?_, ?_⟩
    · rw [e2]; exact hmin
    · rw [e3]; exact hmax
    · rw [e1, e2]; exact hmin
    · rw [e1, e3]; exact hmax
    · rw [e2, e4]; exact hlo
    · rw [e3, e4]; exact hhi
    · rw [e4]; exact hv
    · rw [e1]
      exact e5 hv

theorem DepthInvariant_of_reachable (d : Dialog) (h : ReachableByDepthControls d) :
    DepthInvariant d := by
  induction h with
  | initial d hi => exact DepthInvariant_of_initial d hi
  | step d e _ he ih =>
    cases e with
    | analSlider_moved value => exact DepthInvariant_setValue d value ih
    | analCheckBox_click => exact DepthInvariant_click d ih
    | AdvOptButton_click => simp [Event.isDepthControl] at he
    | okButton_click elapsed => simp [Event.isDepthControl] at he
    | cancelButton_click => simp [Event.isDepthControl] at he
    | updateProgress status => simp [Event.isDepthControl] at he
    | updateProgressTimer elapsed => simp [Event.isDepthControl] at he
    | analysisFinished interrupted => simp [Event.isDepthControl] at he

theorem OptionsDialog_ctor_eq (ui : Dialog) :
    OptionsDialog_ctor ui =
      { analSlider_setValue
          { ui with defaultAnalLevel := 1, progressBar_visible := false,
                    statusLabel_visible := false, elapsedLabel_visible := false } 1 with
        hideFrame_visible := false, analoptionsFrame_visible := false } := rfl

theorem OptionsDialog_ctor_initial (ui : Dialog) (hr : SliderInRange ui)
    (h1 : 1 ≤ ui.analSlider_maximum)
    (hc : ui.analSlider_value = 1 → ui.analCheckBox_checked = true) :
    InitialDepthState (OptionsDialog_ctor ui) := by
  obtain ⟨hmin, hmax, hlo, hhi⟩ := hr
  obtain ⟨e1, e2, e3, e4, e5, e6⟩ := analSlider_setValue_depth
    { ui with defaultAnalLevel := 1, progressBar_visible := false,
              statusLabel_visible := false, elapsedLabel_visible := false } 1
  dsimp only at e1 e2 e3 e4 e5 e6
  rw [clamp_of_mem _ _ _ (by omega) h1] at e1 e5 e6
  rw [OptionsDialog_ctor_eq]
  refine ⟨e4, ?_, ⟨?_, ?_, ?_, ?_⟩, ?_⟩ <;> dsimp only
  · by_cases hv : ui.analSlider_value = 1
    · rw [e6 hv, e1, hc hv]; simp
    · rw [e1]
      have := e5 hv
      simpa using this
  · rw [e2]; exact hmin
  · rw [e3]; exact hmax
  · rw [e1, e2]; omega
  · rw [e1, e3]; exact h1
  · rw [e3]; exact h1


/-- C9: from every state whose slider holds a non-zero value `v` of its range
(a range that holds 0), `on_analCheckBox_clicked false` sets the slider to 0,
records `v` in `defaultAnalLevel` and leaves the checkbox clear, and
`on_analCheckBox_clicked true` right after it sets the slider back to `v`
with the checkbox checked; `on_analSlider_valueChanged` leaves the checkbox
checked exactly when its value is not 0; and in every state reached from an
initial state (`defaultAnalLevel = 1`, checkbox checked iff slider value not
0) by slider changes and checkbox clicks, `defaultAnalLevel` is not 0 and the
checkbox is checked iff the slider value is not 0. -/
theorem analCheckBox_restores_depth :
    (∀ d : Dialog, SliderInRange d → d.analSlider_value ≠ 0 →
        (on_analCheckBox_clicked d false).analSlider_value = 0
          ∧ (on_analCheckBox_clicked d false).defaultAnalLevel = d.analSlider_value
          ∧ (on_analCheckBox_clicked d false).analCheckBox_checked = false
          ∧ (on_analCheckBox_clicked (on_analCheckBox_clicked d false) true).analSlider_value
              = d.analSlider_value
          ∧ (on_analCheckBox_clicked (on_analCheckBox_clicked d false) true).defaultAnalLevel
              = d.analSlider_value
          ∧ (on_analCheckBox_clicked
                (on_analCheckBox_clicked d false) true).analCheckBox_checked = true)
      ∧ (∀ (d : Dialog) (value : Int),
          (on_analSlider_valueChanged d value).analCheckBox_checked = true ↔ value ≠ 0)
      ∧ (∀ d : Dialog, ReachableByDepthControls d →
          d.defaultAnalLevel ≠ 0
            ∧ (d.analCheckBox_checked = true ↔ d.analSlider_value ≠ 0)) := by
  refine ⟨analCheckBox_uncheck_then_check, ?_, ?_⟩
  · intro d value
    exact (on_analSlider_valueChanged_depth d value).2.2.2.2
  · intro d hd
    have hinv := DepthInvariant_of_reachable d hd
    exact ⟨hinv.2.2.2.1, hinv.2.2.2.2⟩

/-- Instance of C9: at `sampleDialog` (level 3) the two clicks bring the
slider back to 3, and the new dialog built from `sampleUi` keeps a non-zero
`defaultAnalLevel` after a move of the slider to 2 and a click. -/
theorem analCheckBox_restores_depth_witness :
    (SliderInRange sampleDialog ∧ sampleDialog.analSlider_value ≠ 0
        ∧ (on_analCheckBox_clicked
            (on_analCheckBox_clicked sampleDialog false) true).analSlider_value = 3)
      ∧ (handle (handle (OptionsDialog_ctor sampleUi) (Event.analSlider_moved 2))
          Event.analCheckBox_click).defaultAnalLevel ≠ 0 :=
  ⟨⟨⟨by decide, by decide, by decide, by decide⟩, by decide,
      (analCheckBox_restores_depth.1 sampleDialog
        ⟨by decide, by decide, by decide, by decide⟩ (by decide)).2.2.2.1⟩,
    (analCheckBox_restores_depth.2.2 _
      (ReachableByDepthControls.step _ Event.analCheckBox_click
        (ReachableByDepthControls.step _ (Event.analSlider_moved 2)
          (ReachableByDepthControls.initial _
            ⟨by decide, by decide, ⟨by decide, by decide, by decide, by decide⟩, by decide⟩)
          rfl)
        rfl)).1⟩

/-! ## The elapsed label (C10) -/

theorem String_mk_append (s : String) (l : List Char) :
    String.mk (s.toList ++ l) = s ++ String.mk l := by
  cases s
  rfl

theorem tr_n_hour (n : Int) (hn : 0 ≤ n) : tr_n "%n hour" n = toString n ++ " hour" := by
  have h : ("%n hour" : String).toList = ['%', 'n', ' ', 'h', 'o', 'u', 'r'] := rfl
  simp only [tr_n, h, hn, if_true]
  simp [substMarker, String_mk_append]
  rfl

theorem tr_n_minute (n : Int) (hn : 0 ≤ n) : tr_n "%n minute" n = toString n ++ " minute" := by
  have h : ("%n minute" : String).toList = ['%', 'n', ' ', 'm', 'i', 'n', 'u', 't', 'e'] := rfl
  simp only [tr_n, h, hn, if_true]
  simp [substMarker, String_mk_append]
  rfl

theorem tr_n_seconds (n : Int) (hn : 0 ≤ n) :
    tr_n "%n seconds" n = toString n ++ " seconds" := by
  have h : ("%n seconds" : String).toList
      = ['%', 'n', ' ', 's', 'e', 'c', 'o', 'n', 'd', 's'] := rfl
  simp only [tr_n, h, hn, if_true]
  simp [substMarker, String_mk_append]
  rfl


theorem toInt32_of_int (x : Int) (h0 : 0 ≤ x) (h1 : x ≤ INT_MAX) : toInt32 x = x := by
  unfold INT_MAX at h1
  unfold toInt32
  omega

theorem updateProgressTimer_label (d : Dialog) (ms : Int) (h0 : 0 ≤ ms)
    (h1 : ms + 500 ≤ INT_MAX) :
    (updateProgressTimer d ms).elapsedLabel_text =
      "Running for "
        ++ (if 3600 ≤ (ms + 500) / 1000 then toString ((ms + 500) / 1000 / 3600) ++ " hour "
            else "")
        ++ (if 60 ≤ (ms + 500) / 1000 then toString ((ms + 500) / 1000 / 60 % 60) ++ " minute "
            else "")
        ++ (toString ((ms + 500) / 1000 % 60) ++ " seconds") := by
  have hs0 : 0 ≤ (ms + 500) / 1000 := by omega
  have hsec : toInt32 ((ms + 500).tdiv 1000) = (ms + 500) / 1000 := by
    rw [Int.tdiv_eq_ediv (by omega) (by decide)]
    unfold INT_MAX at h1
    exact toInt32_of_int _ hs0 (by unfold INT_MAX; omega)
  have hmin : ((ms + 500) / 1000).tdiv 60 = (ms + 500) / 1000 / 60 :=
    Int.tdiv_eq_ediv hs0 (by decide)
  have hhour : ((ms + 500) / 1000 / 60).tdiv 60 = (ms + 500) / 1000 / 3600 := by
    rw [Int.tdiv_eq_ediv (by omega) (by decide)]
    omega
  have hmm : ((ms + 500) / 1000 / 60).tmod 60 = (ms + 500) / 1000 / 60 % 60 :=
    Int.tmod_eq_emod (by omega) (by decide)
  have hss : ((ms + 500) / 1000).tmod 60 = (ms + 500) / 1000 % 60 :=
    Int.tmod_eq_emod hs0 (by decide)
  simp only [updateProgressTimer, hsec, hmin, hhour, hmm, hss,
    tr_n_hour _ (show (0 : Int) ≤ (ms + 500) / 1000 / 3600 by omega),
    tr_n_minute _ (show (0 : Int) ≤ (ms + 500) / 1000 / 60 % 60 by omega),
    tr_n_seconds _ (show (0 : Int) ≤ (ms + 500) / 1000 % 60 by omega), tr]
  have e1 : ("Running for" : String) ++ " " = "Running for " := rfl
  have e2 : ∀ t : String, t ++ " hour" ++ " " = t ++ " hour " := fun t => by
    rw [String.append_assoc]; rfl
  have e3 : ∀ t : String, t ++ " minute" ++ " " = t ++ " minute " := fun t => by
    rw [String.append_assoc]; rfl
  by_cases c1 : 3600 ≤ (ms + 500) / 1000
  · have c2 : 60 ≤ (ms + 500) / 1000 := by omega
    have n1 : (ms + 500) / 1000 / 3600 ≠ 0 := by omega
    have n2 : (ms + 500) / 1000 / 60 ≠ 0 := by omega
    simp only [c1, c2, n1, n2, if_true, ne_eq, not_false_eq_true, e1, String.append_assoc, e2,
      e3]
  · have n1 : (ms + 500) / 1000 / 3600 = 0 := by omega
    by_cases c2 : 60 ≤ (ms + 500) / 1000
    · have n2 : (ms + 500) / 1000 / 60 ≠ 0 := by omega
      simp only [c1, c2, n1, n2, if_true, if_false, ne_eq, not_true_eq_false,
        not_false_eq_true, e1, String.append_assoc, e2, e3, String.append_empty]
    · have n2 : (ms + 500) / 1000 / 60 = 0 := by omega
      simp only [c1, c2, n1, n2, if_false, ne_eq, not_true_eq_false, e1,
        String.append_assoc, String.append_empty]

/-- C10: for an elapsed time of `ms ≥ 0` milliseconds with `ms + 500` in the
range of `int`, `updateProgressTimer` works with `s = (ms + 500) div 1000`,
which is `ms` rounded to the nearest second, halves up; the label is
"Running for ", then the hours `s div 3600` exactly when `s ≥ 3600`, then the
minutes `(s div 60) mod 60` exactly when `s ≥ 60`, then the seconds
`s mod 60`; the numbers shown add up to `s` (a part not shown counts 0) and
minutes and seconds are below 60. -/
theorem elapsed_label_decomposition (d : Dialog) (ms : Int) (h0 : 0 ≤ ms)
    (h1 : ms + 500 ≤ INT_MAX) :
    ∃ s : Int, s = (ms + 500) / 1000
      ∧ 1000 * s - 500 ≤ ms ∧ ms < 1000 * s + 500
      ∧ (updateProgressTimer d ms).elapsedLabel_text =
          "Running for "
            ++ (if 3600 ≤ s then toString (s / 3600) ++ " hour " else "")
            ++ (if 60 ≤ s then toString (s / 60 % 60) ++ " minute " else "")
            ++ (toString (s % 60) ++ " seconds")
      ∧ (if 3600 ≤ s then s / 3600 else 0) * 3600
          + (if 60 ≤ s then s / 60 % 60 else 0) * 60 + s % 60 = s
      ∧ 0 ≤ s / 3600 ∧ 0 ≤ s / 60 % 60 ∧ s / 60 % 60 < 60 ∧ 0 ≤ s % 60 ∧ s % 60 < 60 := by
  refine ⟨(ms + 500) / 1000, rfl, by omega, by omega, updateProgressTimer_label d ms h0 h1,
    ?_, by omega, by omega, by omega, by omega, by omega⟩
  split_ifs <;> omega

/-- Instance of C10 at 3 723 499 ms: 1 hour 2 minutes 3 seconds. -/
theorem elapsed_label_decomposition_witness :
    (0 : Int) ≤ 3723499 ∧ (3723499 : Int) + 500 ≤ INT_MAX
      ∧ ∃ s : Int, s = (3723499 + 500) / 1000
        ∧ 1000 * s - 500 ≤ 3723499 ∧ 3723499 < 1000 * s + 500
        ∧ (updateProgressTimer sampleDialog 3723499).elapsedLabel_text =
            "Running for "
              ++ (if 3600 ≤ s then toString (s / 3600) ++ " hour " else "")
              ++ (if 60 ≤ s then toString (s / 60 % 60) ++ " minute " else "")
              ++ (toString (s % 60) ++ " seconds")
        ∧ (if 3600 ≤ s then s / 3600 else 0) * 3600
            + (if 60 ≤ s then s / 60 % 60 else 0) * 60 + s % 60 = s
        ∧ 0 ≤ s / 3600 ∧ 0 ≤ s / 60 % 60 ∧ s / 60 % 60 < 60 ∧ 0 ≤ s % 60 ∧ s % 60 < 60 :=
  ⟨by decide, by decide, elapsed_label_decomposition sampleDialog 3723499 (by decide) (by decide)⟩

/-! ## Integers read from a text (C6, C7) -/

theorem decimalValue_nil : decimalValue [] = 0 := by
  simp [decimalValue]

theorem decimalValue_cons (c : Char) (cs : List Char) :
    decimalValue (c :: cs) = (c.toNat - '0'.toNat) * 10 ^ cs.length + decimalValue cs := by
  simp only [decimalValue, List.reverse_cons, List.map_append, List.map_cons, List.map_nil,
    Nat.ofDigits_append, Nat.ofDigits_singleton, List.length_map, List.length_reverse]
  ring

theorem parseDigits_of_digits : ∀ (ds : List Char) (acc : Nat),
    (∀ c ∈ ds, c.isDigit = true) →
      parseDigits ds acc = some (acc * 10 ^ ds.length + decimalValue ds)
  | [], acc, _ => by simp [parseDigits, decimalValue_nil]
  | c :: cs, acc, h => by
    have hc : c.isDigit = true := h c (List.mem_cons_self _ _)
    have hcs : ∀ x ∈ cs, x.isDigit = true := fun x hx => h x (List.mem_cons_of_mem _ hx)
    rw [parseDigits, if_pos hc, parseDigits_of_digits cs _ hcs, decimalValue_cons]
    congr 1
    rw [List.length_cons]
    ring

theorem digits_of_parseDigits : ∀ (ds : List Char) (acc v : Nat),
    parseDigits ds acc = some v → ∀ c ∈ ds, c.isDigit = true
  | [], _, _, _ => by simp
  | c :: cs, acc, v, h => by
    rw [parseDigits] at h
    by_cases hc : c.isDigit = true
    · rw [if_pos hc] at h
      intro x hx
      rcases List.mem_cons.mp hx with rfl | hx
      · exact hc
      · exact digits_of_parseDigits cs _ v h x hx
    · rw [if_neg hc] at h
      exact absurd h (by simp)

theorem isDigit_ne_sign (c : Char) (h : c.isDigit = true) : c ≠ '-' ∧ c ≠ '+' := by
  constructor <;> rintro rfl <;> exact absurd h (by decide)

theorem splitSign_of_text (sign ds : List Char)
    (hs : sign = [] ∨ sign = ['+'] ∨ sign = ['-']) (hne : ds ≠ [])
    (hd : ∀ c ∈ ds, c.isDigit = true) :
    splitSign (sign ++ ds) = (decide (sign = ['-']), ds) := by
  rcases hs with rfl | rfl | rfl
  · cases ds with
    | nil => exact absurd rfl hne
    | cons c cs =>
      have := isDigit_ne_sign c (hd c (List.mem_cons_self _ _))
      simp [splitSign, this.1, this.2]
  · simp [splitSign]
  · simp [splitSign]

theorem splitSign_text (t : List Char) :
    ∃ sign : List Char, t = sign ++ (splitSign t).2
      ∧ (sign = [] ∨ sign = ['+'] ∨ sign = ['-'])
      ∧ ((splitSign t).1 = true ↔ sign = ['-']) := by
  cases t with
  | nil => exact ⟨[], by simp [splitSign]⟩
  | cons c r =>
    by_cases h1 : c = '-'
    · exact ⟨['-'], by simp [splitSign, h1]⟩
    · by_cases h2 : c = '+'
      · exact ⟨['+'], by simp [splitSign, h2]⟩
      · exact ⟨[], by simp [splitSign, h1, h2]⟩

/-- The conversion succeeds with `n` exactly on the valid base-10
representations of `n`. -/
theorem QString_toInt_eq_iff (t : String) (n : Int) :
    QString_toInt t = (n, true) ↔ IsIntText t n := by
  constructor
  · intro h
    obtain ⟨sign, hst, hsign, hneg⟩ := splitSign_text (trimSpace t.toList)
    simp only [QString_toInt] at h
    split at h
    · exact absurd h (by simp)
    · rename_i c cs hds
      split at h
      · exact absurd h (by simp)
      · rename_i v hv
        rw [← hds] at hv
        have hdig := digits_of_parseDigits _ _ _ hv
        rw [parseDigits_of_digits _ _ hdig] at hv
        have hv' : v = decimalValue (splitSign (trimSpace t.toList)).2 := by
          have := Option.some.inj hv
          omega
        by_cases hr : INT_MIN ≤ (if (splitSign (trimSpace t.toList)).1 = true then -(v : Int)
            else (v : Int)) ∧ (if (splitSign (trimSpace t.toList)).1 = true then -(v : Int)
            else (v : Int)) ≤ INT_MAX
        · rw [if_pos hr] at h
          have hn := (Prod.mk.inj h).1
          refine ⟨sign, (splitSign (trimSpace t.toList)).2, hst, hsign, ?_, hdig, ?_, ?_, ?_⟩
          · rw [hds]; simp
          · rw [← hn, hv']
            by_cases hm : sign = ['-']
            · rw [if_pos (hneg.2 hm), if_pos hm]
            · rw [if_neg (fun hh => hm (hneg.1 hh)), if_neg hm]
          · rw [← hn]; exact hr.1
          · rw [← hn]; exact hr.2
        · rw [if_neg hr] at h
          exact absurd (Prod.mk.inj h).2 (by simp)
  · rintro ⟨sign, ds, ht, hsign, hne, hdig, hn, hlo, hhi⟩
    have hsp := splitSign_of_text sign ds hsign hne hdig
    have hp := parseDigits_of_digits ds 0 hdig
    simp only [zero_mul, zero_add] at hp
    simp only [QString_toInt, ht, hsp]
    cases ds with
    | nil => exact absurd rfl hne
    | cons c cs =>
      simp only [hp, decide_eq_true_eq]
      rw [← hn, if_pos ⟨hlo, hhi⟩]

/-- The conversion returns 0 with the flag false on every text that is not a
valid base-10 representation of an int. -/
theorem QString_toInt_failed (t : String) (h : ∀ n, ¬ IsIntText t n) :
    QString_toInt t = (0, false) := by
  have hcases : QString_toInt t = (0, false) ∨ ∃ n, QString_toInt t = (n, true) := by
    simp only [QString_toInt]
    split
    · exact Or.inl rfl
    · split
      · exact Or.inl rfl
      · split_ifs
        all_goals first
          | exact Or.inl rfl
          | exact Or.inr ⟨_, rfl⟩
  rcases hcases with h0 | ⟨n, hn⟩
  · exact h0
  · exact absurd ((QString_toInt_eq_iff t n).1 hn) (h n)


theorem digitChar_isDigit (k : Nat) (h : k < 10) :
    (Nat.digitChar k).isDigit = true ∧ (Nat.digitChar k).toNat - '0'.toNat = k := by
  interval_cases k <;> exact ⟨rfl, rfl⟩

theorem toDigitsCore_spec : ∀ (fuel n : Nat) (ds : List Char), n < fuel →
    (∀ c ∈ ds, c.isDigit = true) →
    (∀ c ∈ Nat.toDigitsCore 10 fuel n ds, c.isDigit = true)
      ∧ Nat.toDigitsCore 10 fuel n ds ≠ []
      ∧ decimalValue (Nat.toDigitsCore 10 fuel n ds) = n * 10 ^ ds.length + decimalValue ds
  | 0, _, _, h, _ => absurd h (Nat.not_lt_zero _)
  | fuel + 1, n, ds, h, hds => by
    obtain ⟨hd1, hd2⟩ := digitChar_isDigit (n % 10) (Nat.mod_lt _ (by decide))
    have hcons : ∀ c ∈ Nat.digitChar (n % 10) :: ds, c.isDigit = true := by
      intro c hc
      rcases List.mem_cons.mp hc with rfl | hc
      · exact hd1
      · exact hds c hc
    rw [Nat.toDigitsCore]
    by_cases h0 : n / 10 = 0
    · simp only [h0, if_true]
      refine ⟨hcons, by simp, ?_⟩
      rw [decimalValue_cons, hd2]
      have : n % 10 = n := Nat.mod_eq_of_lt (by omega)
      rw [this]
    · simp only [h0, if_false]
      obtain ⟨i1, i2, i3⟩ :=
        toDigitsCore_spec fuel (n / 10) (Nat.digitChar (n % 10) :: ds) (by omega) hcons
      refine ⟨i1, i2, ?_⟩
      rw [i3, decimalValue_cons, hd2, List.length_cons, pow_succ]
      have hn : n * 10 ^ ds.length = (10 * (n / 10) + n % 10) * 10 ^ ds.length := by
        rw [Nat.div_add_mod]
      rw [hn]
      ring

theorem toDigits_spec (n : Nat) :
    (∀ c ∈ Nat.toDigits 10 n, c.isDigit = true) ∧ Nat.toDigits 10 n ≠ []
      ∧ decimalValue (Nat.toDigits 10 n) = n := by
  obtain ⟨h1, h2, h3⟩ := toDigitsCore_spec (n + 1) n [] (Nat.lt_succ_self n) (by simp)
  refine ⟨h1, h2, ?_⟩
  rw [Nat.toDigits, h3]
  simp [decimalValue_nil]

theorem isDigit_not_space (c : Char) (h : c.isDigit = true) : QChar_isSpace c = false := by
  have h1 : 48 ≤ c.toNat ∧ c.toNat ≤ 57 := by
    simp only [Char.isDigit, Bool.and_eq_true, decide_eq_true_eq] at h
    exact ⟨h.1, h.2⟩
  simp only [QChar_isSpace]
  simp
  omega


theorem dropWhile_isSpace_of_head (c : Char) (cs : List Char) (h : QChar_isSpace c = false) :
    (c :: cs).dropWhile QChar_isSpace = c :: cs := by
  simp [List.dropWhile, h]

theorem trimSpace_of_no_space (l : List Char) (h : ∀ c ∈ l, QChar_isSpace c = false) :
    trimSpace l = l := by
  have hd : ∀ m : List Char, (∀ c ∈ m, QChar_isSpace c = false) →
      m.dropWhile QChar_isSpace = m := by
    intro m hm
    cases m with
    | nil => rfl
    | cons c cs => exact dropWhile_isSpace_of_head c cs (hm c (List.mem_cons_self _ _))
  rw [trimSpace, hd l h, hd l.reverse (fun c hc => h c (List.mem_reverse.mp hc)),
    List.reverse_reverse]

theorem IsIntText_ofNat (m : Nat) (h : (m : Int) ≤ INT_MAX) :
    IsIntText (toString (m : Int)) (m : Int) := by
  obtain ⟨h1, h2, h3⟩ := toDigits_spec m
  have hl : (toString (m : Int)).toList = Nat.toDigits 10 m := rfl
  refine ⟨[], Nat.toDigits 10 m, ?_, Or.inl rfl, h2, h1, ?_, ?_, h⟩
  · rw [hl, List.nil_append]
    exact trimSpace_of_no_space _ (fun c hc => isDigit_not_space c (h1 c hc))
  · simp [h3]
  · unfold INT_MIN; omega

theorem IsIntText_negSucc (m : Nat) (h : INT_MIN ≤ Int.negSucc m) :
    IsIntText (toString (Int.negSucc m)) (Int.negSucc m) := by
  obtain ⟨h1, h2, h3⟩ := toDigits_spec (m + 1)
  have hl : (toString (Int.negSucc m)).toList = '-' :: Nat.toDigits 10 (m + 1) := rfl
  refine ⟨['-'], Nat.toDigits 10 (m + 1), ?_, Or.inr (Or.inr rfl), h2, h1, ?_, h, ?_⟩
  · rw [hl]
    apply trimSpace_of_no_space
    intro c hc
    rcases List.mem_cons.mp hc with rfl | hc
    · decide
    · exact isDigit_not_space c (h1 c hc)
  · rw [if_pos rfl, h3]
    rfl
  · unfold INT_MAX
    have := Int.negSucc_lt_zero m
    omega

/-- The decimal numeral of every `int` is a valid representation of it. -/
theorem IsIntText_toString (n : Int) (hlo : INT_MIN ≤ n) (hhi : n ≤ INT_MAX) :
    IsIntText (toString n) n := by
  cases n with
  | ofNat m => exact IsIntText_ofNat m hhi
  | negSucc m => exact IsIntText_negSucc m hlo

theorem QString_toInt_of_text (t : String) (sign ds : List Char)
    (ht : trimSpace t.toList = sign ++ ds) (hs : sign = [] ∨ sign = ['+'] ∨ sign = ['-'])
    (hne : ds ≠ []) (hd : ∀ c ∈ ds, c.isDigit = true) :
    QString_toInt t =
      if INT_MIN ≤ (if sign = ['-'] then -(decimalValue ds : Int) else (decimalValue ds : Int))
          ∧ (if sign = ['-'] then -(decimalValue ds : Int) else (decimalValue ds : Int))
            ≤ INT_MAX
      then ((if sign = ['-'] then -(decimalValue ds : Int) else (decimalValue ds : Int)), true)
      else (0, false) := by
  have hsp := splitSign_of_text sign ds hs hne hd
  have hp := parseDigits_of_digits ds 0 hd
  simp only [zero_mul, zero_add] at hp
  simp only [QString_toInt, ht, hsp]
  cases ds with
  | nil => exact absurd rfl hne
  | cons c cs => simp only [hp, decide_eq_true_eq]

/-- The decimal numeral of a number outside the range of `int` is not
converted. -/
theorem QString_toInt_out_of_range (n : Int) (h : n < INT_MIN ∨ INT_MAX < n) :
    QString_toInt (toString n) = (0, false) := by
  have hr : ¬ (INT_MIN ≤ n ∧ n ≤ INT_MAX) := by
    rintro ⟨h1, h2⟩
    rcases h with h | h <;> omega
  cases n with
  | ofNat m =>
    obtain ⟨h1, h2, h3⟩ := toDigits_spec m
    have hl : (toString (Int.ofNat m)).toList = Nat.toDigits 10 m := rfl
    rw [QString_toInt_of_text (toString (Int.ofNat m)) [] (Nat.toDigits 10 m)
      (by rw [hl, List.nil_append]
          exact trimSpace_of_no_space _ (fun c hc => isDigit_not_space c (h1 c hc)))
      (Or.inl rfl) h2 h1]
    have hne : ¬ (([] : List Char) = ['-']) := by simp
    simp only [if_neg hne, h3]
    exact if_neg hr
  | negSucc m =>
    obtain ⟨h1, h2, h3⟩ := toDigits_spec (m + 1)
    have hl : (toString (Int.negSucc m)).toList = '-' :: Nat.toDigits 10 (m + 1) := rfl
    rw [QString_toInt_of_text (toString (Int.negSucc m)) ['-'] (Nat.toDigits 10 (m + 1))
      (by rw [hl]
          apply trimSpace_of_no_space
          intro c hc
          rcases List.mem_cons.mp hc with rfl | hc
          · decide
          · exact isDigit_not_space c (h1 c hc))
      (Or.inr (Or.inr rfl)) h2 h1]
    simp only [if_true, h3]
    have he : -((m + 1 : Nat) : Int) = Int.negSucc m := rfl
    rw [he]
    exact if_neg hr


theorem getSelectedBBSize_eq (d : Dialog) :
    getSelectedBBSize d =
      (if (QString_toInt d.entry_analbb_text).2 = true then (QString_toInt d.entry_analbb_text).1
        else 1024, d) := by
  simp only [getSelectedBBSize]
  split_ifs <;> rfl

theorem getSelectedBits_eq (d : Dialog) :
    getSelectedBits d =
      (if d.bitsComboBox_currentText ≠ "Auto" then (QString_toInt d.bitsComboBox_currentText).1
        else 0, d) := by
  simp only [getSelectedBits]
  split_ifs <;> rfl

/-- C6: `getSelectedBBSize` returns `n` when the text of `entry_analbb` is a
valid base-10 representation of the int `n` and 1024 when the text is not a
valid representation of any int. The decimal numeral of every `int` (0 and
the negative ones among them) gives that `int` back; the numeral of a number
out of the range of `int` gives 1024, and so does the empty text. The state
is left as it was. -/
theorem getSelectedBBSize_spec (d : Dialog) (t : String) :
    (∀ n : Int, IsIntText t n →
        (getSelectedBBSize { d with entry_analbb_text := t }).1 = n)
      ∧ ((∀ n : Int, ¬ IsIntText t n) →
        (getSelectedBBSize { d with entry_analbb_text := t }).1 = 1024)
      ∧ (∀ n : Int, INT_MIN ≤ n → n ≤ INT_MAX →
        (getSelectedBBSize { d with entry_analbb_text := toString n }).1 = n)
      ∧ (∀ n : Int, n < INT_MIN ∨ INT_MAX < n →
        (getSelectedBBSize { d with entry_analbb_text := toString n }).1 = 1024)
      ∧ (getSelectedBBSize { d with entry_analbb_text := "" }).1 = 1024
      ∧ (getSelectedBBSize { d with entry_analbb_text := "0" }).1 = 0
      ∧ (getSelectedBBSize { d with entry_analbb_text := "-16" }).1 = -16
      ∧ (getSelectedBBSize d).2 = d := by
  have hok : ∀ (s : String) (n : Int), IsIntText s n →
      (getSelectedBBSize { d with entry_analbb_text := s }).1 = n := by
    intro s n hn
    rw [getSelectedBBSize_eq]
    simp only [(QString_toInt_eq_iff s n).2 hn, if_true]
  have hbad : ∀ s : String, QString_toInt s = (0, false) →
      (getSelectedBBSize { d with entry_analbb_text := s }).1 = 1024 := by
    intro s hs
    rw [getSelectedBBSize_eq]
    simp only [hs, Bool.false_eq_true, if_false]
  refine ⟨hok t, fun h => hbad t (QString_toInt_failed t h),
    fun n h1 h2 => hok _ n (IsIntText_toString n h1 h2),
    fun n h => hbad _ (QString_toInt_out_of_range n h), hbad "" (by decide),
    hok "0" 0 ((QString_toInt_eq_iff "0" 0).1 (by decide)),
    hok "-16" (-16) ((QString_toInt_eq_iff "-16" (-16)).1 (by decide)), ?_⟩
  rw [getSelectedBBSize_eq]

/-- Instance of C6: the text " 4096 " is a valid representation of 4096, and
the text "4k" is not a valid representation of any int. -/
theorem getSelectedBBSize_spec_witness :
    (getSelectedBBSize { sampleDialog with entry_analbb_text := " 4096 " }).1 = 4096
      ∧ (getSelectedBBSize { sampleDialog with entry_analbb_text := "4k" }).1 = 1024
      ∧ (getSelectedBBSize { sampleDialog with entry_analbb_text := toString (-7 : Int) }).1
          = -7
      ∧ (getSelectedBBSize
          { sampleDialog with entry_analbb_text := toString (2147483648 : Int) }).1 = 1024 :=
  ⟨(getSelectedBBSize_spec sampleDialog " 4096 ").1 4096
      ((QString_toInt_eq_iff " 4096 " 4096).1 (by decide)),
    (getSelectedBBSize_spec sampleDialog "4k").2.1
      (fun n hn => absurd ((QString_toInt_eq_iff "4k" n).2 hn) (by
        have h : QString_toInt "4k" = (0, false) := by decide
        rw [h]
        simp)),
    (getSelectedBBSize_spec sampleDialog "").2.2.1 (-7) (by decide) (by decide),
    (getSelectedBBSize_spec sampleDialog "").2.2.2.1 2147483648 (Or.inr (by decide))⟩

/-- C7: `getSelectedBits` returns 0 when the text of the bits combo box is
"Auto", `n` when the text is a valid base-10 representation of the int `n`,
and 0 for every other text ("auto" and the empty text among them); a result
that is not 0 comes only from a text that is a valid representation of that
result. The state is left as it was. -/
theorem getSelectedBits_spec (d : Dialog) (t : String) :
    (getSelectedBits { d with bitsComboBox_currentText := "Auto" }).1 = 0
      ∧ (∀ n : Int, IsIntText t n →
        (getSelectedBits { d with bitsComboBox_currentText := t }).1 = n)
      ∧ (t ≠ "Auto" → (∀ n : Int, ¬ IsIntText t n) →
        (getSelectedBits { d with bitsComboBox_currentText := t }).1 = 0)
      ∧ (getSelectedBits { d with bitsComboBox_currentText := "auto" }).1 = 0
      ∧ (getSelectedBits { d with bitsComboBox_currentText := "" }).1 = 0
      ∧ ((getSelectedBits { d with bitsComboBox_currentText := t }).1 ≠ 0 →
        IsIntText t (getSelectedBits { d with bitsComboBox_currentText := t }).1)
      ∧ (getSelectedBits d).2 = d := by
  have hauto : QString_toInt "Auto" = (0, false) := by decide
  have hcases : ∀ s : String,
      QString_toInt s = (0, false) ∨ IsIntText s (QString_toInt s).1 := by
    intro s
    by_cases h : ∃ n, IsIntText s n
    · obtain ⟨n, hn⟩ := h
      right
      rw [(QString_toInt_eq_iff s n).2 hn]
      exact hn
    · left
      exact QString_toInt_failed s (fun n hn => h ⟨n, hn⟩)
  refine ⟨?_, ?_, ?_, ?_, ?_, ?_, ?_⟩
  · rw [getSelectedBits_eq]
    simp
  · intro n hn
    have ht : t ≠ "Auto" := by
      rintro rfl
      have := (QString_toInt_eq_iff "Auto" n).2 hn
      rw [hauto] at this
      exact absurd (Prod.mk.inj this).2 (by simp)
    rw [getSelectedBits_eq]
    simp only [ht, ne_eq, not_false_eq_true, if_true, (QString_toInt_eq_iff t n).2 hn]
  · intro ht h
    rw [getSelectedBits_eq]
    simp only [ht, ne_eq, not_false_eq_true, if_true, QString_toInt_failed t h]
  · rw [getSelectedBits_eq]
    dsimp only
    decide
  · rw [getSelectedBits_eq]
    dsimp only
    decide
  · rw [getSelectedBits_eq]
    dsimp only
    by_cases ht : t = "Auto"
    · simp [ht]
    · simp only [ht, ne_eq, not_false_eq_true, if_true]
      intro hne
      rcases hcases t with h0 | h1
      · rw [h0] at hne
        exact absurd rfl hne
      · exact h1
  · rw [getSelectedBits_eq]

/-- Instance of C7: the text "64" is a valid representation of 64, and
"x86" is neither "Auto" nor a valid representation of an int. -/
theorem getSelectedBits_spec_witness :
    (getSelectedBits { sampleDialog with bitsComboBox_currentText := "64" }).1 = 64
      ∧ (getSelectedBits { sampleDialog with bitsComboBox_currentText := "x86" }).1 = 0
      ∧ IsIntText "32" (getSelectedBits { sampleDialog with bitsComboBox_currentText := "32" }).1 :=
  ⟨(getSelectedBits_spec sampleDialog "64").2.1 64
      ((QString_toInt_eq_iff "64" 64).1 (by decide)),
    (getSelectedBits_spec sampleDialog "x86").2.2.1 (by decide)
      (fun n hn => absurd ((QString_toInt_eq_iff "x86" n).2 hn) (by
        have h : QString_toInt "x86" = (0, false) := by decide
        rw [h]
        simp)),
    (getSelectedBits_spec sampleDialog "32").2.2.2.2.2.1 (by decide)⟩

end OptionsDialog
